import Mathlib

/-!
Verification of the Objective & Key-Result reconciliation layer of the
`mcp-workboard` tool server, as a shallow embedding in Lean.

The Python source (`tools/objectives.py`, `errors.py`, `client.py`,
`models.py`) manipulates JSON-like values; we model those values with the
`PyVal` inductive type, Python floats with `PyFloat` (finite values as
rationals plus `nan` / `inf` / `-inf`, which suffices for the ordering and
parsing behaviour the code depends on), and Python exceptions with
`Except`.  Backend HTTP calls are modelled by an abstract `Backend`
record, and every tool operation is embedded as a function that both
computes the returned value and records the trace of backend calls made.
-/

namespace WB

/-- Python float values: finite values are idealized as rationals; the
special values `nan`, `inf`, `-inf` keep their IEEE comparison behaviour. -/
inductive PyFloat where
  | finite (q : ℚ)
  | nan
  | inf
  | ninf
deriving DecidableEq, Repr

/-- Strict `<` on Python floats: `nan` compares false against everything. -/
def PyFloat.lt : PyFloat → PyFloat → Bool
  | .finite a, .finite b => a < b
  | .finite _, .inf => true
  | .ninf, .finite _ => true
  | .ninf, .inf => true
  | _, _ => false

/-- JSON-like Python values as they arrive from the WorkBoard API. -/
inductive PyVal where
  | none
  | bool (b : Bool)
  | int (n : ℤ)
  | float (f : PyFloat)
  | str (s : String)
  | list (xs : List PyVal)
  | dict (kvs : List (String × PyVal))
deriving Repr

/-- Python exception classes that the embedded code can raise or catch. -/
inductive PyErr where
  | valueError
  | typeError
  | overflowError
  | attributeError
  | keyError
  | pydanticError (msg : String)
deriving DecidableEq, Repr

/-- Python truthiness (`bool(x)`), used by `x or y` and `if x:` tests. -/
def pyTruthy : PyVal → Bool
  | .none => false
  | .bool b => b
  | .int n => n ≠ 0
  | .float (.finite q) => q ≠ 0
  | .float _ => true
  | .str s => s ≠ ""
  | .list xs => !xs.isEmpty
  | .dict kvs => !kvs.isEmpty

/-- Python `x or y`: yields `x` when truthy, else `y`. -/
def pyOr (x y : PyVal) : PyVal :=
  if pyTruthy x then x else y

/-- Lookup in a Python dict (modelled as an association list with the
dict's insertion order; keys are unique in actual payloads). -/
def dictLookup (kvs : List (String × PyVal)) (k : String) : Option PyVal :=
  match kvs.find? (fun p => p.1 = k) with
  | some p => some p.2
  | Option.none => Option.none

/-- Python `d.get(k, default)`; raises `AttributeError` when the receiver
is not a dict, exactly like attribute access on a non-dict value. -/
def pyGet (v : PyVal) (k : String) (dflt : PyVal) : Except PyErr PyVal :=
  match v with
  | .dict kvs => .ok ((dictLookup kvs k).getD dflt)
  | _ => .error .attributeError

/-- Python `d[k]` subscription with a string key. -/
def pySubscript (v : PyVal) (k : String) : Except PyErr PyVal :=
  match v with
  | .dict kvs =>
      match dictLookup kvs k with
      | some w => .ok w
      | Option.none => .error .keyError
  | _ => .error .typeError

/-- Digit characters to the natural number they denote (most significant
first); helper for the `int` / `float` literal grammars. -/
def digitsToNat (cs : List Char) : ℕ :=
  cs.foldl (fun a c => a * 10 + (c.toNat - 48)) 0

/-- Python `str.strip()` whitespace removal used by numeric conversion. -/
def stripSpaces (cs : List Char) : List Char :=
  (((cs.dropWhile (· = ' ')).reverse).dropWhile (· = ' ')).reverse

/-- Parse the body of a Python `int()` literal: an optional sign followed
by one or more decimal digits. -/
def parseIntBody (cs : List Char) : Option ℤ :=
  match cs with
  | '-' :: ds =>
      if ds ≠ [] ∧ ds.all Char.isDigit then some (-(digitsToNat ds : ℤ)) else Option.none
  | '+' :: ds =>
      if ds ≠ [] ∧ ds.all Char.isDigit then some (digitsToNat ds : ℤ) else Option.none
  | ds =>
      if ds ≠ [] ∧ ds.all Char.isDigit then some (digitsToNat ds : ℤ) else Option.none

/-- Truncation of a rational toward zero, the behaviour of Python
`int(float)`. -/
def ratTrunc (q : ℚ) : ℤ :=
  if q < 0 then ⌈q⌉ else ⌊q⌋

/-- Python `int(x)`: `TypeError` for `None` / containers, `ValueError`
for `nan` and non-numeric strings, `OverflowError` for infinities;
decimal strings such as `"1.5"` are rejected exactly as Python rejects
them. -/
def pyIntOf : PyVal → Except PyErr ℤ
  | .none => .error .typeError
  | .bool b => .ok (if b then 1 else 0)
  | .int n => .ok n
  | .float (.finite q) => .ok (ratTrunc q)
  | .float .nan => .error .valueError
  | .float .inf => .error .overflowError
  | .float .ninf => .error .overflowError
  | .str s =>
      match parseIntBody (stripSpaces s.data) with
      | some n => .ok n
      | Option.none => .error .valueError
  | .list _ => .error .typeError
  | .dict _ => .error .typeError

/-- Lower-casing of ASCII letters, for the case-insensitive special float
names accepted by Python `float()`. -/
def asciiLower (c : Char) : Char :=
  if 'A' ≤ c ∧ c ≤ 'Z' then Char.ofNat (c.toNat + 32) else c

/-- Parse the body of a Python `float()` literal after sign removal:
decimal digits with an optional point (`"7"`, `"7.5"`, `".5"`, `"5."`),
or the special names `nan` / `inf` / `infinity` case-insensitively.
(The exponent form `1e3` is not used by the repository and is omitted.) -/
def parseFloatBody (cs : List Char) : Option PyFloat :=
  let low := cs.map asciiLower
  if low = "nan".data then some .nan
  else if low = "inf".data ∨ low = "infinity".data then some .inf
  else
    let intPart := cs.takeWhile Char.isDigit
    let rest := cs.dropWhile Char.isDigit
    match rest with
    | [] =>
        if intPart ≠ [] then some (.finite (digitsToNat intPart : ℚ)) else Option.none
    | '.' :: frac =>
        if frac.all Char.isDigit ∧ (intPart ≠ [] ∨ frac ≠ []) then
          some (.finite ((digitsToNat intPart : ℚ) +
            (digitsToNat frac : ℚ) / ((10 : ℚ) ^ frac.length)))
        else Option.none
    | _ => Option.none

/-- Negation of a Python float. -/
def PyFloat.neg : PyFloat → PyFloat
  | .finite q => .finite (-q)
  | .nan => .nan
  | .inf => .ninf
  | .ninf => .inf

/-- Parse a full Python `float()` string: stripped, optionally signed. -/
def parseFloatLit (cs : List Char) : Option PyFloat :=
  match stripSpaces cs with
  | '-' :: body => (parseFloatBody body).map PyFloat.neg
  | '+' :: body => parseFloatBody body
  | body => parseFloatBody body

/-- Python `float(x)`. -/
def pyFloatOf : PyVal → Except PyErr PyFloat
  | .none => .error .typeError
  | .bool b => .ok (.finite (if b then 1 else 0))
  | .int n => .ok (.finite (n : ℚ))
  | .float f => .ok f
  | .str s =>
      match parseFloatLit s.data with
      | some f => .ok f
      | Option.none => .error .valueError
  | .list _ => .error .typeError
  | .dict _ => .error .typeError

/-- Fuel-driven digit extraction (structural, so that the kernel can
evaluate renderings inside proofs). -/
def natDigitsAux : ℕ → ℕ → List Char
  | 0, _ => []
  | fuel + 1, n =>
      if n < 10 then [Char.ofNat (48 + n)]
      else natDigitsAux fuel (n / 10) ++ [Char.ofNat (48 + n % 10)]

/-- Decimal digits of a natural number, most significant first. -/
def natDigits (n : ℕ) : List Char :=
  natDigitsAux (n + 1) n

/-- Decimal rendering of an integer. -/
def intStr (n : ℤ) : List Char :=
  if n < 0 then '-' :: natDigits n.natAbs else natDigits n.natAbs

/-- Fuel-driven grouping of a reversed digit list in threes. -/
def groupThreesAux : ℕ → List Char → List Char
  | 0, ds => ds
  | fuel + 1, ds =>
      if ds.length ≤ 3 then ds
      else ds.take 3 ++ ',' :: groupThreesAux fuel (ds.drop 3)

/-- Group a reversed digit list in threes, the `\x7b:,\x7d` format spec. -/
def groupThrees (ds : List Char) : List Char :=
  groupThreesAux ds.length ds

/-- Python `f"\x7bn:,\x7d"`: decimal with thousands separators. -/
def commaInt (n : ℤ) : List Char :=
  let body := (groupThrees (natDigits n.natAbs).reverse).reverse
  if n < 0 then '-' :: body else body

/-- Decimal digits of the proper fraction `num / den`, stopping when the
remainder vanishes (all floats arising here have terminating decimals). -/
def fracDigits (num den fuel : ℕ) : List Char :=
  match fuel with
  | 0 => []
  | fuel' + 1 =>
      if num = 0 then []
      else Char.ofNat (48 + num * 10 / den) :: fracDigits (num * 10 % den) den fuel'

/-- Python `repr` / `str` of a float: integral values render as `N.0`,
and terminating decimals render exactly (matching the observable
parse-then-print behaviour of CPython on the decimal literals this
code receives). -/
def pyFloatRepr : PyFloat → List Char
  | .nan => "nan".data
  | .inf => "inf".data
  | .ninf => "-inf".data
  | .finite q =>
      let sign : List Char := if q < 0 then ['-'] else []
      let ip := q.num.natAbs / q.den
      let fr := q.num.natAbs % q.den
      sign ++ natDigits ip ++ '.' ::
        (if fr = 0 then ['0'] else fracDigits fr q.den 64)

/-- Interpose `", "` between rendered elements, as Python containers do. -/
def joinCommaSep : List (List Char) → List Char
  | [] => []
  | [x] => x
  | x :: xs => x ++ ',' :: ' ' :: joinCommaSep xs

mutual

/-- Python `repr(x)` (string quoting simplified to plain single quotes). -/
def pyReprOf : PyVal → List Char
  | .none => "None".data
  | .bool b => if b then "True".data else "False".data
  | .int n => intStr n
  | .float f => pyFloatRepr f
  | .str s => '\'' :: (s.data ++ ['\''])
  | .list xs => '[' :: (joinCommaSep (pyReprList xs) ++ [']'])
  | .dict kvs => Char.ofNat 123 :: (joinCommaSep (pyReprDict kvs) ++ [Char.ofNat 125])

/-- Renderings of the elements of a list value. -/
def pyReprList : List PyVal → List (List Char)
  | [] => []
  | v :: vs => pyReprOf v :: pyReprList vs

/-- Renderings `'key': value` of the entries of a dict value. -/
def pyReprDict : List (String × PyVal) → List (List Char)
  | [] => []
  | (k, v) :: kvs =>
      ('\'' :: (k.data ++ '\'' :: ':' :: ' ' :: pyReprOf v)) :: pyReprDict kvs

end

/-- Python `str(x)`: the bare string for strings, `repr` otherwise. -/
def pyStrOf : PyVal → List Char
  | .str s => s.data
  | v => pyReprOf v

/-- Convert a day count since 1970-01-01 to `(year, month, day)` in the
proleptic Gregorian calendar (the civil-from-days algorithm used by
`datetime.fromtimestamp` with a UTC timezone). -/
def civilFromDays (days : ℕ) : ℕ × ℕ × ℕ :=
  let z := days + 719468
  let era := z / 146097
  let doe := z % 146097
  let yoe := (doe - doe / 1460 + doe / 36524 - doe / 146096) / 365
  let y := yoe + era * 400
  let doy := doe - (365 * yoe + yoe / 4 - yoe / 100)
  let mp := (5 * doy + 2) / 153
  let d := doy - (153 * mp + 2) / 5 + 1
  let m := if mp < 10 then mp + 3 else mp - 9
  (if m ≤ 2 then y + 1 else y, m, d)

/-- Zero-pad a digit string on the left to `w` characters. -/
def padZero (w : ℕ) (ds : List Char) : List Char :=
  List.replicate (w - ds.length) '0' ++ ds

/-- Render a positive Unix timestamp as `YYYY-MM-DD` in UTC, the
`strftime("%Y-%m-%d")` output of the source. -/
def dateStr (ts : ℕ) : String :=
  let c := civilFromDays (ts / 86400)
  ⟨padZero 4 (natDigits c.1) ++ '-' ::
    (padZero 2 (natDigits c.2.1) ++ '-' :: padZero 2 (natDigits c.2.2))⟩

/-- Largest Unix timestamp whose UTC date has a year below 10000; beyond
it `datetime.fromtimestamp` raises instead of producing a date. -/
def maxTimestamp : ℤ := 253402300799

/-- Embedding of `_format_date` (`tools/objectives.py`): `None` and
inputs whose `int()` coercion raises `ValueError` / `TypeError` yield
`""`, as do non-positive timestamps; other exceptions (for example the
`OverflowError` of `int(float("inf"))`, or the out-of-range error of
`datetime.fromtimestamp` on a huge timestamp) propagate. -/
def formatDate (v : PyVal) : Except PyErr String :=
  match v with
  | .none => .ok ""
  | t =>
      match pyIntOf t with
      | .error .valueError => .ok ""
      | .error .typeError => .ok ""
      | .error e => .error e
      | .ok ts =>
          if ts ≤ 0 then .ok ""
          else if maxTimestamp < ts then .error .valueError
          else .ok (dateStr ts.toNat)

/-- Python `==` between a value and a string literal: only equal strings
compare equal; values of other types compare unequal. -/
def pyEqStr (v : PyVal) (s : String) : Bool :=
  match v with
  | .str t => t = s
  | _ => false

/-- Python `int()` applied to a float value. -/
def pyIntOfFloat : PyFloat → Except PyErr ℤ
  | .finite q => .ok (ratTrunc q)
  | .nan => .error .valueError
  | .inf => .error .overflowError
  | .ninf => .error .overflowError

/-- Run a computation under `except (ValueError, TypeError)`, substituting
the default; any other exception propagates. -/
def catchVT {α : Type} (m : Except PyErr α) (dflt : α) : Except PyErr α :=
  match m with
  | .error .valueError => .ok dflt
  | .error .typeError => .ok dflt
  | r => r

/-- Python iteration `for x in v`: lists yield elements, dicts yield their
keys, strings yield one-character strings; other values raise. -/
def pyIterVals : PyVal → Except PyErr (List PyVal)
  | .list xs => .ok xs
  | .dict kvs => .ok (kvs.map (fun p => .str p.1))
  | .str s => .ok (s.data.map (fun c => .str ⟨[c]⟩))
  | _ => .error .typeError

/-- Python `str.isdigit` restricted to ASCII digits (the response keys). -/
def pyIsDigit (s : String) : Bool :=
  !s.isEmpty && s.data.all Char.isDigit

/-- Whether a value is a Python dict (`isinstance(v, dict)`). -/
def isDict : PyVal → Bool
  | .dict _ => true
  | _ => false

/-- Embedding of `_format_metric` (`tools/objectives.py`).  The `try`
blocks around the `float` coercions catch only `ValueError` and
`TypeError`; the `int` coercions of `metric_id` and of the achieved /
target floats are unguarded, so they can raise. -/
def formatMetric (metric : PyVal) : Except PyErr PyVal := do
  let unit ← pyGet metric "metric_unit" (.dict [])
  let unitName : PyVal :=
    match unit with
    | .dict kvs => (dictLookup kvs "name").getD (.str "")
    | _ => .str ""
  let tv ← pyGet metric "metric_target" .none
  let target ← catchVT (pyFloatOf (pyOr tv (.int 0))) (.finite 0)
  let av ← pyGet metric "metric_achieve_target" .none
  let achieved ← catchVT (pyFloatOf (pyOr av (.int 0))) (.finite 0)
  let progress ←
    if pyEqStr unitName "Currency" then do
      let a ← pyIntOfFloat achieved
      let t ← pyIntOfFloat target
      pure ('$' :: commaInt a ++ " of $".data ++ commaInt t)
    else if pyEqStr unitName "Number" then do
      let a ← pyIntOfFloat achieved
      let t ← pyIntOfFloat target
      pure (intStr a ++ " of ".data ++ intStr t)
    else do
      let a ← pyIntOfFloat achieved
      let t ← pyIntOfFloat target
      pure (intStr a ++ "% of ".data ++ intStr t ++ ['%'])
  let midv ← pyGet metric "metric_id" (.int 0)
  let mid ← pyIntOf midv
  let namev ← pyGet metric "metric_name" (.str "")
  let tdv ← pyGet metric "target_date" .none
  let targetDate ← formatDate tdv
  let rawLast ← pyGet metric "metric_last_update" .none
  let lastTs ← catchVT (pyIntOf (pyOr rawLast (.int 0))) 0
  let lastUpdated ←
    if 0 < lastTs then do
      let d ← formatDate (.int lastTs)
      pure (PyVal.str d)
    else
      pure PyVal.none
  .ok (.dict [("metric_id", .int mid), ("name", namev),
    ("progress", .str ⟨progress⟩), ("target_date", .str targetDate),
    ("last_updated", lastUpdated)])

/-- Embedding of `_format_goal` (`tools/objectives.py`). -/
def formatGoal (goal : PyVal) : Except PyErr PyVal := do
  let progress ← catchVT
    (do
      let g ← pyGet goal "goal_progress" .none
      let f ← pyFloatOf (pyOr g (.int 0))
      pyIntOfFloat f)
    0
  let oidv ← pyGet goal "goal_id" .none
  let namev ← pyGet goal "goal_name" (.str "")
  let base := [("objective_id", oidv), ("name", namev),
    ("progress", PyVal.str ⟨intStr progress ++ ['%']⟩)]
  let owner ← pyGet goal "goal_owner_full_name" .none
  let withOwner := base ++ (if pyTruthy owner then [("owner", owner)] else [])
  let team ← pyGet goal "goal_team_name" .none
  let withTeam := withOwner ++ (if pyTruthy team then [("team", team)] else [])
  let sdv ← pyGet goal "goal_start_date" .none
  let start ← formatDate sdv
  let tdv ← pyGet goal "goal_target_date" .none
  let target ← formatDate tdv
  let withDates := withTeam ++
    (if start ≠ "" ∧ target ≠ "" then
      [("dates", PyVal.str (start ++ " to " ++ target))] else [])
  let metricsv ← pyGet goal "goal_metrics" (.list [])
  if pyTruthy metricsv then do
    let ms ← pyIterVals metricsv
    let formatted ← ms.mapM formatMetric
    .ok (.dict (withDates ++ [("key_results", .list formatted)]))
  else
    .ok (.dict withDates)

/-- Embedding of `_extract_goals_from_response` (`tools/objectives.py`):
returns the goals list together with the reported total, which is read
from the `goal_count` field of the `data` node (and kept verbatim, with
default `0`, as in the source's unchecked `data.get("goal_count", 0)`). -/
def extractGoals (response : PyVal) : Except PyErr (List PyVal × PyVal) := do
  let data ← pyGet response "data" (.dict [])
  match data with
  | .dict dkvs =>
      let goalCount := (dictLookup dkvs "goal_count").getD (.int 0)
      let userData := (dictLookup dkvs "user").getD (.dict [])
      match userData with
      | .dict ukvs =>
          let goalsObj := (dictLookup ukvs "goal").getD (.dict [])
          let goals :=
            match goalsObj with
            | .dict gkvs =>
                (gkvs.filter (fun p => pyIsDigit p.1 && isDict p.2)).map (·.2)
            | .list xs => xs
            | _ => []
          .ok (goals, goalCount)
      | _ => .ok ([], goalCount)
  | _ => .ok ([], .int 0)

/-- The replacement text used when scrubbing credentials. -/
def stars : List Char := ['*', '*', '*']

/-- Python `s.replace(t, r)` for non-empty `t`: leftmost non-overlapping
occurrences of `t` in `s` are replaced by `r` (for empty `t` the source
never calls `replace`, and we return `s` unchanged). -/
def pyReplace (s t r : List Char) : List Char :=
  if t = [] then s
  else if hp : t.isPrefixOf s then r ++ pyReplace (s.drop t.length) t r
  else
    match s with
    | [] => []
    | c :: cs => c :: pyReplace cs t r
termination_by s.length
decreasing_by
  · have h1 := (List.isPrefixOf_iff_prefix.mp hp).length_le
    have h2 : t ≠ [] := by assumption
    have h3 : 0 < t.length := List.length_pos.mpr h2
    simp only [List.length_drop]
    omega
  · simp

/-- Embedding of the token scrubbing in `WorkBoardApiError.__init__`
(`errors.py`): `message.replace(token, "***") if token else message`. -/
def sanitizeMessage (token msg : List Char) : List Char :=
  if token ≠ [] then pyReplace msg token stars else msg

/-- The safe error classes of `errors.py`, with the constructor arguments
each class receives. -/
inductive UserErr where
  | invalidUserId
  | invalidObjectiveId
  | invalidMetricId
  | notFound (resource identifier : List Char)
  | permissionDenied (requiredScope : List Char)
  | rateLimit (retryAfter : PyVal)
  | apiError (code : ℤ) (message : List Char)
deriving Repr

/-- The `str(error)` rendering of each error class of `errors.py`; the
credential `token` is consulted only by the `WorkBoardApiError` case. -/
def renderUserErr (token : List Char) : UserErr → List Char
  | .invalidUserId => "Invalid user_id format. Expected positive integer.".data
  | .invalidObjectiveId => "Invalid objective_id format. Expected positive integer.".data
  | .invalidMetricId => "Invalid metric_id format. Expected positive integer.".data
  | .notFound resource identifier =>
      let safeId :=
        if 20 < identifier.length then identifier.take 20 ++ "...".data
        else identifier
      resource ++ " not found or not accessible: ".data ++ safeId
  | .permissionDenied requiredScope =>
      "Permission denied. Required scope: ".data ++ requiredScope
  | .rateLimit retryAfter =>
      "Rate limit exceeded.".data ++
        (if pyTruthy retryAfter then
          " Retry after ".data ++ pyStrOf retryAfter ++ " seconds.".data
        else [])
  | .apiError code message =>
      "WorkBoard API error ".data ++ intStr code ++ ": ".data ++
        sanitizeMessage token message

/-- Embedding of `_handle_error_response` (`client.py`): maps a
non-success status code and parsed body to the raised error class. -/
def handleErrorResponse (status : ℤ) (data : PyVal) : Except PyErr UserErr := do
  let m0 ← pyGet data "message" (.str "Unknown error")
  let errorMsg := if isDict m0 then PyVal.str ⟨pyStrOf m0⟩ else m0
  if status = 401 then .ok (.permissionDenied "Valid API token".data)
  else if status = 403 then .ok (.permissionDenied "Required permission scope".data)
  else if status = 404 then .ok (.notFound "Resource".data (pyStrOf errorMsg))
  else if status = 429 then do
    let ra ← pyGet data "retry_after" .none
    .ok (.rateLimit ra)
  else .ok (.apiError status (pyStrOf errorMsg))

/-- Unfolding `pyReplace` at a match position. -/
theorem pyReplace_eq_rep (s t : List Char) (ht : t ≠ []) (hp : t <+: s) :
    pyReplace s t stars = stars ++ pyReplace (s.drop t.length) t stars := by
  rw [pyReplace, if_neg ht, dif_pos (List.isPrefixOf_iff_prefix.mpr hp)]

/-- Unfolding `pyReplace` on the empty source. -/
theorem pyReplace_nil (t : List Char) (ht : t ≠ []) :
    pyReplace [] t stars = [] := by
  have hp : ¬ (t.isPrefixOf ([] : List Char) = true) := by
    intro hp
    exact ht (List.prefix_nil.mp (List.isPrefixOf_iff_prefix.mp hp))
  rw [pyReplace, if_neg ht, dif_neg hp]

/-- Unfolding `pyReplace` at a non-match position. -/
theorem pyReplace_eq_cons (c : Char) (cs t : List Char) (ht : t ≠ [])
    (hp : ¬ t <+: (c :: cs)) :
    pyReplace (c :: cs) t stars = c :: pyReplace cs t stars := by
  have hp' : ¬ (t.isPrefixOf (c :: cs) = true) := by
    intro h
    exact hp (List.isPrefixOf_iff_prefix.mp h)
  rw [pyReplace, if_neg ht, dif_neg hp']

/-- An asterisk-free prefix of the output of `pyReplace _ _ stars` is a
prefix of the source string: replacement segments start with `'*'`. -/
theorem prefix_source_of_prefix_pyReplace (t : List Char) (ht : t ≠ []) :
    ∀ (s u : List Char), (∀ c ∈ u, c ≠ '*') →
      u <+: pyReplace s t stars → u <+: s := by
  have ht1 : 0 < t.length := List.length_pos.mpr ht
  suffices H : ∀ (n : ℕ) (s : List Char), s.length ≤ n → ∀ u : List Char,
      (∀ c ∈ u, c ≠ '*') → u <+: pyReplace s t stars → u <+: s by
    exact fun s u hu h => H s.length s le_rfl u hu h
  intro n
  induction n with
  | zero =>
      intro s hs u hu h
      have hs0 : s = [] := List.length_eq_zero.mp (Nat.le_zero.mp hs)
      subst hs0
      rw [pyReplace_nil t ht] at h
      exact List.prefix_nil.mp h ▸ List.nil_prefix
  | succ n ih =>
      intro s hs u hu h
      by_cases hp : t <+: s
      · rw [pyReplace_eq_rep s t ht hp] at h
        match u, h with
        | [], _ => exact List.nil_prefix
        | c :: u', h =>
            exact absurd (List.cons_prefix_cons.mp h).1
              (hu c (List.mem_cons_self _ _))
      · match s, hp, h, hs with
        | [], hp, h, hs =>
            rw [pyReplace_nil t ht] at h
            exact List.prefix_nil.mp h ▸ List.nil_prefix
        | c :: cs, hp, h, hs =>
            rw [pyReplace_eq_cons c cs t ht hp] at h
            match u, h with
            | [], _ => exact List.nil_prefix
            | c' :: u', h =>
                obtain ⟨hc, hu'⟩ := List.cons_prefix_cons.mp h
                have hlen : cs.length ≤ n := by
                  simpa using hs
                have := ih cs hlen u'
                  (fun x hx => hu x (List.mem_cons_of_mem _ hx)) hu'
                exact List.cons_prefix_cons.mpr ⟨hc, this⟩

/-- After scrubbing, no occurrence of the (non-empty, asterisk-free)
credential remains anywhere in the output of `pyReplace`. -/
theorem not_infix_pyReplace (t : List Char) (ht : t ≠ [])
    (hstar : ∀ c ∈ t, c ≠ '*') :
    ∀ s : List Char, ¬ t <:+: pyReplace s t stars := by
  have ht1 : 0 < t.length := List.length_pos.mpr ht
  suffices H : ∀ (n : ℕ) (s : List Char), s.length ≤ n →
      ¬ t <:+: pyReplace s t stars by
    exact fun s => H s.length s le_rfl
  intro n
  induction n with
  | zero =>
      intro s hs h
      have hs0 : s = [] := List.length_eq_zero.mp (Nat.le_zero.mp hs)
      subst hs0
      rw [pyReplace_nil t ht] at h
      exact ht (List.infix_nil.mp h)
  | succ n ih =>
      intro s hs h
      by_cases hp : t <+: s
      · rw [pyReplace_eq_rep s t ht hp] at h
        have hstep : ∀ x : List Char, t <:+: '*' :: x → t <:+: x := by
          intro x hx
          rcases List.infix_cons_iff.mp hx with hpre | hinf
          · match t, ht, hpre with
            | c :: t', _, hpre =>
                exact absurd (List.cons_prefix_cons.mp hpre).1
                  (hstar c (List.mem_cons_self _ _))
          · exact hinf
        have hlen : (s.drop t.length).length ≤ n := by
          have := hp.length_le
          simp only [List.length_drop]
          omega
        exact ih (s.drop t.length) hlen (hstep _ (hstep _ (hstep _ h)))
      · match s, hp, h, hs with
        | [], hp, h, hs =>
            rw [pyReplace_nil t ht] at h
            exact ht (List.infix_nil.mp h)
        | c :: cs, hp, h, hs =>
            rw [pyReplace_eq_cons c cs t ht hp] at h
            rcases List.infix_cons_iff.mp h with hpre | hinf
            · match t, ht, hstar, hp, hpre with
              | c' :: t', _, hstar, hp, hpre =>
                  obtain ⟨hc, hpre'⟩ := List.cons_prefix_cons.mp hpre
                  have : t' <+: cs :=
                    prefix_source_of_prefix_pyReplace (c' :: t') (by simp) cs t'
                      (fun x hx => hstar x (List.mem_cons_of_mem _ hx)) hpre'
                  exact hp (List.cons_prefix_cons.mpr ⟨hc, this⟩)
            · have hlen : cs.length ≤ n := by simpa using hs
              exact ih cs hlen hinf

/-- When the credential occurred in the message, the scrubbed output
contains `***` where it stood. -/
theorem stars_infix_pyReplace (t : List Char) (ht : t ≠ []) :
    ∀ s : List Char, t <:+: s → stars <:+: pyReplace s t stars := by
  suffices H : ∀ (n : ℕ) (s : List Char), s.length ≤ n → t <:+: s →
      stars <:+: pyReplace s t stars by
    exact fun s => H s.length s le_rfl
  intro n
  induction n with
  | zero =>
      intro s hs h
      have hs0 : s = [] := List.length_eq_zero.mp (Nat.le_zero.mp hs)
      subst hs0
      exact absurd (List.infix_nil.mp h) ht
  | succ n ih =>
      intro s hs h
      by_cases hp : t <+: s
      · rw [pyReplace_eq_rep s t ht hp]
        exact (List.prefix_append stars _).isInfix
      · match s, hp, h, hs with
        | [], hp, h, hs => exact absurd (List.infix_nil.mp h) ht
        | c :: cs, hp, h, hs =>
            rw [pyReplace_eq_cons c cs t ht hp]
            rcases List.infix_cons_iff.mp h with hpre | hinf
            · exact absurd hpre hp
            · have hlen : cs.length ≤ n := by simpa using hs
              exact List.infix_cons_iff.mpr (Or.inr (ih cs hlen hinf))

/-- Embedding of `validate_user_id` (`models.py`). -/
def validate_user_id (n : ℤ) : Except UserErr ℤ :=
  if n ≤ 0 then .error .invalidUserId else .ok n

/-- Embedding of `validate_objective_id` (`models.py`). -/
def validate_objective_id (n : ℤ) : Except UserErr ℤ :=
  if n ≤ 0 then .error .invalidObjectiveId else .ok n

/-- Embedding of `validate_metric_id` (`models.py`). -/
def validate_metric_id (n : ℤ) : Except UserErr ℤ :=
  if n ≤ 0 then .error .invalidMetricId else .ok n

/-- Embedding of the `UpdateKeyResultInput` Pydantic model (`models.py`):
`value` is a 1–20 character string that must parse as a float not below
zero (so `nan`, which compares false, passes), `comment` is bounded at
1000 characters. -/
def validateUpdateKeyResultInput (value : String) (comment : Option String) :
    Except PyErr (String × Option String) := do
  if value.length < 1 ∨ 20 < value.length then
    throw (.pydanticError "value: length out of bounds")
  match parseFloatLit value.data with
  | Option.none => throw (.pydanticError "Value must be a number")
  | some f =>
      if PyFloat.lt f (.finite 0) then
        throw (.pydanticError "Value must be non-negative")
      else
        match comment with
        | some c =>
            if 1000 < c.length then throw (.pydanticError "comment: too long")
            else .ok (value, comment)
        | Option.none => .ok (value, comment)

/-- The backend HTTP surface as the tools consume it: `get` and `put`
return parsed JSON or raise one of the `errors.py` classes (the client
converts every transport failure into such a class before the tools see
it). -/
structure Backend where
  get : String → Except UserErr PyVal
  put : String → PyVal → Except UserErr PyVal

/-- One backend call, as recorded in an invocation's trace. -/
inductive Call where
  | get (path : String)
  | put (path : String) (payload : PyVal)
deriving Repr

/-- Errors propagating out of a tool operation: a safe `UserError`
subclass, or an ordinary Python exception. -/
inductive Err where
  | user (e : UserErr)
  | py (e : PyErr)
deriving Repr

/-- The tool-operation monad: an `Except`-style computation that also
appends the backend calls it makes to a trace. -/
def TM (α : Type) : Type := List Call → Except Err α × List Call

instance : Monad TM where
  pure a := fun t => (.ok a, t)
  bind m f := fun t =>
    match m t with
    | (.ok a, t') => f a t'
    | (.error e, t') => (.error e, t')

/-- Run a tool operation from an empty trace. -/
def TM.run {α : Type} (m : TM α) : Except Err α × List Call := m []

/-- Lift a pure Python computation into the monad. -/
def liftPy {α : Type} : Except PyErr α → TM α
  | .ok a => fun t => (.ok a, t)
  | .error e => fun t => (.error (.py e), t)

/-- Lift a validator result (raising a `UserError`) into the monad. -/
def liftUser {α : Type} : Except UserErr α → TM α
  | .ok a => fun t => (.ok a, t)
  | .error e => fun t => (.error (.user e), t)

/-- A `client.get` call: recorded in the trace, may raise a `UserError`. -/
def tmGet (B : Backend) (path : String) : TM PyVal := fun t =>
  match B.get path with
  | .ok v => (.ok v, t ++ [.get path])
  | .error e => (.error (.user e), t ++ [.get path])

/-- A `client.put` call: recorded in the trace, may raise a `UserError`. -/
def tmPut (B : Backend) (path : String) (payload : PyVal) : TM PyVal := fun t =>
  match B.put path payload with
  | .ok v => (.ok v, t ++ [.put path payload])
  | .error e => (.error (.user e), t ++ [.put path payload])

/-- Python `except UserError`: only safe errors are intercepted. -/
def tmCatchUser {α : Type} (m : TM α) (h : UserErr → TM α) : TM α := fun t =>
  match m t with
  | (.error (.user e), t') => h e t'
  | r => r

/-- Python `except Exception`: every error is intercepted. -/
def tmCatchAll {α : Type} (m : TM α) (h : Err → TM α) : TM α := fun t =>
  match m t with
  | (.error e, t') => h e t'
  | r => r

/-- The capped objective-list path `/user/\x7bid\x7d/goal`. -/
def userGoalPath (uid : ℤ) : String :=
  "/user/" ++ ⟨intStr uid⟩ ++ "/goal"

/-- The objective-detail path `/user/\x7bid\x7d/goal/\x7bgoal_id\x7d`. -/
def userGoalDetailPath (uid oid : ℤ) : String :=
  "/user/" ++ ⟨intStr uid⟩ ++ "/goal/" ++ ⟨intStr oid⟩

/-- The metric-update path `/metric/\x7bid\x7d`. -/
def metricPath (mid : ℤ) : String :=
  "/metric/" ++ ⟨intStr mid⟩

/-- Python `v > n` for a list length `n`: numeric values compare, other
types raise `TypeError` (the source compares the unchecked `goal_count`
response field against `len(goals)`). -/
def pyGtNat (v : PyVal) (n : ℕ) : Except PyErr Bool :=
  match v with
  | .int m => .ok ((n : ℤ) < m)
  | .bool b => .ok (n < (if b then 1 else 0))
  | .float f => .ok (PyFloat.lt (.finite (n : ℚ)) f)
  | _ => .error .typeError

/-- Embedding of `get_objectives` (`tools/objectives.py`): queries the
capped list endpoint, formats every extracted goal with no owner
filtering, and attaches a cap warning when the reported count exceeds
the number of returned goals. -/
def get_objectives (B : Backend) (user_id : ℤ) : TM PyVal := do
  let uid ← liftUser (validate_user_id user_id)
  let response ← tmGet B (userGoalPath uid)
  let pr ← liftPy (extractGoals response)
  let objs ← liftPy (pr.1.mapM formatGoal)
  let gt ← liftPy (pyGtNat pr.2 pr.1.length)
  if gt then
    pure (.dict [("objectives", .list objs),
      ("warning", .str ⟨"Showing ".data ++ natDigits pr.1.length ++
        " of ".data ++ pyStrOf pr.2 ++
        " objectives (API cap). Some objectives may be missing.".data⟩)])
  else
    pure (.dict [("objectives", .list objs)])

/-- The current-year filter of `_get_objective_ids_from_metrics`: keeps
the metrics whose coerced `target_date` is at least `yearStart`; the
unguarded `int()` coercion propagates its exceptions. -/
def filterCurrentYear (yearStart : ℤ) : List PyVal → Except PyErr (List PyVal)
  | [] => .ok []
  | m :: ms => do
      let tdv ← pyGet m "target_date" .none
      let td ← pyIntOf (pyOr tdv (.int 0))
      let rest ← filterCurrentYear yearStart ms
      .ok (if yearStart ≤ td then m :: rest else rest)

/-- The id-collection loop of `_get_objective_ids_from_metrics`: reads
`metric_goal_id` from each metric, skipping `None` values and values
whose `int()` coercion raises `ValueError` / `TypeError`. -/
def collectGoalIds : List PyVal → Except PyErr (List ℤ)
  | [] => .ok []
  | m :: ms => do
      let gid ← pyGet m "metric_goal_id" .none
      let contrib ←
        match gid with
        | .none => Except.ok ([] : List ℤ)
        | g =>
            match pyIntOf g with
            | .ok n => Except.ok [n]
            | .error .valueError => Except.ok []
            | .error .typeError => Except.ok []
            | .error e => Except.error e
      let rest ← collectGoalIds ms
      .ok (contrib ++ rest)

/-- The discovery computation of `_get_objective_ids_from_metrics` after
the `/metric` fetch: filter to the current year, collect the distinct
parent-objective ids, and sort them ascending (`sorted(set(...))`). -/
def discoverIds (yearStart : ℤ) (response : PyVal) : Except PyErr (List ℤ) := do
  let data ← pyGet response "data" (.dict [])
  let metricsVal :=
    match data with
    | .dict kvs => (dictLookup kvs "metric").getD (.list [])
    | _ => .list []
  let ms ← pyIterVals metricsVal
  let kept ← filterCurrentYear yearStart ms
  let ids ← collectGoalIds kept
  .ok (List.insertionSort (fun a b => a ≤ b) ids.dedup)

/-- Embedding of `_get_objective_ids_from_metrics`
(`tools/objectives.py`); `yearStart` stands for the
`_current_year_start()` clock reading, passed as a parameter. -/
def objectiveIdsFromMetrics (B : Backend) (yearStart : ℤ) : TM (List ℤ) := do
  let response ← tmGet B "/metric"
  liftPy (discoverIds yearStart response)

/-- The identity-resolution step of `get_my_objectives`:
`int(user_response["data"]["user"]["user_id"])`. -/
def parseCurrentUserId (v : PyVal) : Except PyErr ℤ := do
  let d ← pySubscript v "data"
  let u ← pySubscript d "user"
  let i ← pySubscript u "user_id"
  pyIntOf i

/-- The structured error result returned when the current user id cannot
be parsed. -/
def cannotDetermineUser : PyVal :=
  .dict [("error", .str "Could not determine current user ID")]

/-- The result returned when implicit discovery yields no objective ids. -/
def noObjectivesFound : PyVal :=
  .dict [("objectives", .list []),
    ("message", .str ("No objectives found. No current-year key results were found " ++
      "that link to objectives. You can provide objective IDs explicitly."))]

/-- The `skipped` entry recorded for an id whose detail fetch raised a
`UserError`. -/
def skippedEntry (oid : ℤ) : PyVal :=
  .dict [("objective_id", .int oid),
    ("error", .str "Not accessible (may be archived or from a prior year)")]

/-- The nested extraction
`detail.get("data", \x7b\x7d).get("user", \x7b\x7d).get("goal", \x7b\x7d)`
performed on each objective-detail response. -/
def detailGoal (detail : PyVal) : Except PyErr PyVal := do
  let d ← pyGet detail "data" (.dict [])
  let u ← pyGet d "user" (.dict [])
  pyGet u "goal" (.dict [])

/-- The per-id fetch loop of `get_my_objectives`: each id is validated,
fetched, and formatted; a `UserError` during the fetch/format of one id
records a `skipped` entry and the loop continues with the rest. -/
def fetchLoop (B : Backend) (uid : ℤ) : List ℤ → TM (List PyVal × List PyVal)
  | [] => pure ([], [])
  | oid :: rest => do
      let voidd ← liftUser (validate_objective_id oid)
      let head ← tmCatchUser
        (do
          let detail ← tmGet B (userGoalDetailPath uid voidd)
          let goal ← liftPy (detailGoal detail)
          if isDict goal ∧ pyTruthy goal then do
            let fg ← liftPy (formatGoal goal)
            pure (Sum.inl fg)
          else
            pure (Sum.inl detail))
        (fun _ => pure (Sum.inr (skippedEntry voidd)))
      let pr ← fetchLoop B uid rest
      match head with
      | .inl o => pure (o :: pr.1, pr.2)
      | .inr s => pure (pr.1, s :: pr.2)

/-- Assemble the `get_my_objectives` result from the loop output: the
`skipped` key is present only when some id was skipped. -/
def myObjectivesResult (objs skips : List PyVal) : PyVal :=
  .dict ([("objectives", .list objs)] ++
    (if skips.isEmpty then [] else [("skipped", .list skips)]))

/-- Embedding of `get_my_objectives` (`tools/objectives.py`); `yearStart`
stands for the `_current_year_start()` clock reading used by implicit
discovery. -/
def get_my_objectives (B : Backend) (yearStart : ℤ)
    (objective_ids : Option (List ℤ)) : TM PyVal := do
  let user_response ← tmGet B "/user"
  match parseCurrentUserId user_response with
  | .error .keyError => pure cannotDetermineUser
  | .error .typeError => pure cannotDetermineUser
  | .error .valueError => pure cannotDetermineUser
  | .error e => liftPy (.error e)
  | .ok uid =>
      match objective_ids with
      | Option.none => do
          let ids ← objectiveIdsFromMetrics B yearStart
          if ids.isEmpty then
            pure noObjectivesFound
          else do
            let pr ← fetchLoop B uid ids
            pure (myObjectivesResult pr.1 pr.2)
      | some ids => do
          let pr ← fetchLoop B uid ids
          pure (myObjectivesResult pr.1 pr.2)

/-- The pre-initialized metric name `f"metric/\x7bmetric_id\x7d"` used
when the read-back finds nothing. -/
def defaultMetricName (mid : ℤ) : PyVal :=
  .str ("metric/" ++ ⟨intStr mid⟩)

/-- The matching loop of the read-back guard in `update_key_result`:
finds the metric with the given id and reads its achieved value and
name; coercion errors propagate (and are swallowed by the caller). -/
def findMetric (mid : ℤ) : List PyVal → Except PyErr (Option PyFloat × PyVal)
  | [] => .ok (Option.none, defaultMetricName mid)
  | m :: ms => do
      let idv ← pyGet m "metric_id" (.int 0)
      let idn ← pyIntOf idv
      if idn = mid then do
        let av ← pyGet m "metric_achieve_target" .none
        let cv ← pyFloatOf (pyOr av (.int 0))
        let nv ← pyGet m "metric_name" (defaultMetricName mid)
        .ok (some cv, nv)
      else findMetric mid ms

/-- The pure part of the advisory read-back: extract the metric
collection from the response and look the metric up. -/
def readBackPure (mid : ℤ) (resp : PyVal) : Except PyErr (Option PyFloat × PyVal) := do
  let d ← pyGet resp "data" (.dict [])
  let msv ← pyGet d "metric" (.list [])
  let lst ← pyIterVals msv
  findMetric mid lst

/-- The advisory read-back of `update_key_result`: fetch the metric
collection and look the metric up; the caller wraps this in
`except Exception`. -/
def readCurrentValue (B : Backend) (mid : ℤ) : TM (Option PyFloat × PyVal) := do
  let resp ← tmGet B "/metric"
  liftPy (readBackPure mid resp)

/-- The write body of `update_key_result`:
`\x7b"metric_data": value\x7d` plus `metric_comment` when a comment was
supplied. -/
def updatePayload (validated : String × Option String) : PyVal :=
  .dict ([("metric_data", .str validated.1)] ++
    (match validated.2 with
     | some c => [("metric_comment", PyVal.str c)]
     | Option.none => []))

/-- The regression warning text of `update_key_result`:
`f"Value decreased from \x7bold\x7d to \x7bnew\x7d for '\x7bname\x7d' (metric_id=\x7bid\x7d)"`. -/
def decreaseWarning (cur new : PyFloat) (name : PyVal) (mid : ℤ) : List Char :=
  "Value decreased from ".data ++ pyFloatRepr cur ++ " to ".data ++
    pyFloatRepr new ++ " for '".data ++ pyStrOf name ++
    "' (metric_id=".data ++ intStr mid ++ [')']

/-- Embedding of `update_key_result` (`tools/objectives.py`): validate,
best-effort read-back (failures swallowed), advisory decrease warning,
then the write, which always happens when validation passed. -/
def update_key_result (B : Backend) (metric_id : ℤ) (value : String)
    (comment : Option String) : TM PyVal := do
  let mid ← liftUser (validate_metric_id metric_id)
  let validated ← liftPy (validateUpdateKeyResultInput value comment)
  let rb ← tmCatchAll (readCurrentValue B mid)
    (fun _ => pure (Option.none, defaultMetricName mid))
  let newValue ← liftPy (pyFloatOf (.str validated.1))
  let warning : Option (List Char) :=
    match rb.1 with
    | some cur =>
        if PyFloat.lt newValue cur then
          some (decreaseWarning cur newValue rb.2 mid)
        else Option.none
    | Option.none => Option.none
  let resp ← tmPut B (metricPath mid) (updatePayload validated)
  pure (.dict ([("key_result", resp)] ++
    (match warning with
     | some w => if w ≠ [] then [("warning", PyVal.str ⟨w⟩)] else []
     | Option.none => [])))

/-- Pointwise unfolding of monadic bind in `TM`. -/
theorem TM.bind_apply {α β : Type} (m : TM α) (f : α → TM β) (t : List Call) :
    (m >>= f) t =
      match m t with
      | (.ok a, t') => f a t'
      | (.error e, t') => (.error e, t') := rfl

/-- Pointwise unfolding of `pure` in `TM`. -/
theorem TM.pure_apply {α : Type} (a : α) (t : List Call) :
    (pure a : TM α) t = (.ok a, t) := rfl

/-- Pointwise unfolding of a traced `get` call. -/
theorem tmGet_apply (B : Backend) (path : String) (t : List Call) :
    tmGet B path t =
      match B.get path with
      | .ok v => (.ok v, t ++ [.get path])
      | .error e => (.error (.user e), t ++ [.get path]) := rfl

/-- Pointwise unfolding of a traced `put` call. -/
theorem tmPut_apply (B : Backend) (path : String) (payload : PyVal) (t : List Call) :
    tmPut B path payload t =
      match B.put path payload with
      | .ok v => (.ok v, t ++ [.put path payload])
      | .error e => (.error (.user e), t ++ [.put path payload]) := rfl

/-- Pointwise unfolding of `liftPy`. -/
theorem liftPy_apply {α : Type} (m : Except PyErr α) (t : List Call) :
    liftPy m t =
      match m with
      | .ok a => (Except.ok a, t)
      | .error e => (.error (Err.py e), t) := by
  cases m <;> rfl

/-- Pointwise unfolding of `liftUser`. -/
theorem liftUser_apply {α : Type} (m : Except UserErr α) (t : List Call) :
    liftUser m t =
      match m with
      | .ok a => (Except.ok a, t)
      | .error e => (.error (Err.user e), t) := by
  cases m <;> rfl

/-- A sample raw goal record. -/
def sampleGoalA : PyVal := .dict [("goal_id", .int 1)]

/-- A second sample raw goal record. -/
def sampleGoalB : PyVal := .dict [("goal_id", .int 2)]

/-- The envelope of claim C1: the reported count sits inside the goal
collection node, beside the numeric-keyed entries. -/
def envelopeCountInGoalNode : PyVal :=
  .dict [("data", .dict [("user", .dict [("goal",
    .dict [("0", sampleGoalA), ("1", sampleGoalB), ("goal_count", .int 5)])])])]

/-- The same envelope with the reported count at the `data` level, beside
the `user` node, which is where `_extract_goals_from_response` reads it. -/
def envelopeCountAtDataLevel : PyVal :=
  .dict [("data", .dict [
    ("goal_count", .int 5),
    ("user", .dict [("goal",
      .dict [("0", sampleGoalA), ("1", sampleGoalB)])])])]

/-- C1, counterexample: normalizing the envelope whose goal collection
node is `\x7b"0": ..., "1": ..., "goal_count": 5\x7d` yields 2 items but a
reported total of 0, not 5 — `_extract_goals_from_response` reads
`goal_count` from the `data` level, not from beside the numeric keys. -/
theorem C1_counterexample :
    extractGoals envelopeCountInGoalNode =
      .ok ([sampleGoalA, sampleGoalB], .int 0) ∧
    PyVal.int 0 ≠ PyVal.int 5 :=
  ⟨rfl, by simp⟩

/-- C1, amended: normalizing the claim's envelope yields 2 items and
reported total 0, because the total is read from the `goal_count` field
of the `data` node (sibling of `user`), defaulting to 0 when absent;
with the count placed at the `data` level the same items come back with
reported total 5; and the empty envelope yields no items and total 0. -/
theorem C1_extract_goals_amended :
    extractGoals envelopeCountInGoalNode =
      .ok ([sampleGoalA, sampleGoalB], .int 0) ∧
    extractGoals envelopeCountAtDataLevel =
      .ok ([sampleGoalA, sampleGoalB], .int 5) ∧
    extractGoals (.dict []) = .ok ([], .int 0) :=
  ⟨rfl, rfl, rfl⟩

/-- C9, counterexample: `_format_metric` is not total — on a metric whose
`metric_id` is a non-numeric string the unguarded `int()` coercion
raises `ValueError` instead of coercing to a default. -/
theorem C9_counterexample :
    formatMetric (.dict [("metric_id", .str "abc")]) =
      .error .valueError := rfl

/-- C9, amended: the timestamp formatter never raises and yields the
empty string whenever the input is non-positive or non-parseable (an
`int()` coercion failing with `ValueError` / `TypeError`, which includes
`None`); but the formatters are not total on all inputs — unguarded
`int()` coercions in `_format_metric` / `_format_goal` (for example a
non-numeric `metric_id` string) and positive timestamps beyond the
representable date range raise. -/
theorem C9_format_date_amended (v : PyVal)
    (h : pyIntOf v = .error .valueError ∨ pyIntOf v = .error .typeError ∨
      ∃ ts : ℤ, pyIntOf v = .ok ts ∧ ts ≤ 0) :
    formatDate v = .ok "" := by
  rcases h with h | h | ⟨ts, hts, hle⟩ <;>
    cases v <;>
      simp_all [formatDate, pyIntOf]

/-- C9, witness: the amended theorem applied to the non-parseable
timestamp `"abc"` and to the non-positive timestamp `0`. -/
theorem C9_format_date_witness :
    formatDate (.str "abc") = .ok "" ∧ formatDate (.int 0) = .ok "" :=
  ⟨C9_format_date_amended (.str "abc") (Or.inl rfl),
   C9_format_date_amended (.int 0) (Or.inr (Or.inr ⟨0, rfl, le_refl 0⟩))⟩

/-- C8, counterexample: credential scrubbing does not cover every error
class.  With the credential `"tok"` and a backend 404 body whose message
embeds it, `_handle_error_response` raises `NotFoundError`, whose
rendering truncates the identifier at 20 characters but does not replace
the credential — the rendered message contains `"tok"` verbatim. -/
theorem C8_counterexample :
    handleErrorResponse 404 (.dict [("message", .str "tok leaked")]) =
      .ok (.notFound "Resource".data "tok leaked".data) ∧
    "tok".data <:+:
      renderUserErr "tok".data (.notFound "Resource".data "tok leaked".data) :=
  ⟨rfl, by decide⟩

/-- C8, amended: only the generic-API rendering (`WorkBoardApiError`)
scrubs the credential; for every non-empty credential that does not
itself contain the replacement character `'*'`, the scrubbed message
embedded in that rendering contains no occurrence of the credential,
and contains `***` in its place whenever the credential occurred.  The
not-found rendering only truncates its identifier to 20 characters and
can leak a short credential verbatim, and the permission-denied and
rate-limit renderings do not embed the backend message at all. -/
theorem C8_sanitize_amended (token msg : List Char) (h1 : token ≠ [])
    (h2 : ∀ c ∈ token, c ≠ '*') :
    ¬ token <:+: sanitizeMessage token msg ∧
      (token <:+: msg → stars <:+: sanitizeMessage token msg) := by
  unfold sanitizeMessage
  rw [if_pos h1]
  exact ⟨not_infix_pyReplace token h1 h2 msg,
    fun h => stars_infix_pyReplace token h1 msg h⟩

/-- C8, witness: the amended theorem applied to the credential `"sec"`
and a message embedding it. -/
theorem C8_sanitize_witness :
    ¬ "sec".data <:+: sanitizeMessage "sec".data "bad sec key".data ∧
      ("sec".data <:+: "bad sec key".data →
        stars <:+: sanitizeMessage "sec".data "bad sec key".data) :=
  C8_sanitize_amended "sec".data "bad sec key".data (by decide) (by decide)

/-- A metric whose target date lies in the year after the current one. -/
def lateMetric : PyVal :=
  .dict [("metric_id", .int 9), ("metric_goal_id", .int 7),
    ("target_date", .int 1798761601)]

/-- A backend whose metric collection contains only `lateMetric`. -/
def lateMetricBackend : Backend where
  get p :=
    if p = "/metric" then
      .ok (.dict [("data", .dict [("metric", .list [lateMetric])])])
    else .error (.notFound "Resource".data "x".data)
  put _ _ := .ok (.dict [])

/-- The Unix timestamp of 2026-01-01 UTC, the `_current_year_start()`
reading during the current year. -/
def year2026Start : ℤ := 1767225600

/-- C4, counterexample: discovery filters only with
`target_date >= year_start`, so a metric whose target date falls in the
NEXT calendar year (2027-01-01, outside the current year on the late
side) still contributes its parent-objective id 7. -/
theorem C4_counterexample :
    (objectiveIdsFromMetrics lateMetricBackend year2026Start).run =
      (.ok [7], [.get "/metric"]) ∧
    dateStr 1767225600 = "2026-01-01" ∧
    dateStr 1798761601 = "2027-01-01" :=
  ⟨rfl, by decide, by decide⟩

/-- C4, amended: in metric-driven discovery a metric passes the date
filter (and so can contribute its parent-objective id) exactly when its
coerced target date is at least Jan 1 of the current year — prior-year
metrics are excluded, but metrics with target dates in LATER years also
pass, since the filter has no upper bound. -/
theorem C4_filter_amended (yearStart : ℤ) (ms kept : List PyVal)
    (h : filterCurrentYear yearStart ms = .ok kept) :
    ∀ m : PyVal, m ∈ kept ↔ (m ∈ ms ∧
      ∃ tdv td, pyGet m "target_date" .none = .ok tdv ∧
        pyIntOf (pyOr tdv (.int 0)) = .ok td ∧ yearStart ≤ td) := by
  induction ms generalizing kept with
  | nil =>
      rw [filterCurrentYear] at h
      cases h
      simp
  | cons m0 ms ih =>
      intro m
      rw [filterCurrentYear] at h
      cases hg : pyGet m0 "target_date" PyVal.none with
      | error e => rw [hg] at h; simp only [Bind.bind, Except.bind] at h; cases h
      | ok tdv =>
          rw [hg] at h
          simp only [Bind.bind, Except.bind] at h
          cases hi : pyIntOf (pyOr tdv (.int 0)) with
          | error e => rw [hi] at h; cases h
          | ok td =>
              rw [hi] at h
              cases hr : filterCurrentYear yearStart ms with
              | error e => rw [hr] at h; cases h
              | ok rest =>
                  rw [hr] at h
                  cases h
                  by_cases hyt : yearStart ≤ td
                  · rw [if_pos hyt]
                    constructor
                    · intro hm
                      rcases List.mem_cons.mp hm with hm0 | hmr
                      · subst hm0
                        exact ⟨List.mem_cons_self _ _, tdv, td, hg, hi, hyt⟩
                      · obtain ⟨hms, hc⟩ := (ih rest hr m).mp hmr
                        exact ⟨List.mem_cons_of_mem _ hms, hc⟩
                    · rintro ⟨hm, hc⟩
                      rcases List.mem_cons.mp hm with hm0 | hms
                      · exact hm0 ▸ List.mem_cons_self _ _
                      · exact List.mem_cons_of_mem _ ((ih rest hr m).mpr ⟨hms, hc⟩)
                  · rw [if_neg hyt]
                    constructor
                    · intro hm
                      obtain ⟨hms, hc⟩ := (ih rest hr m).mp hm
                      exact ⟨List.mem_cons_of_mem _ hms, hc⟩
                    · rintro ⟨hm, tdv', td', hg', hi', hyt'⟩
                      rcases List.mem_cons.mp hm with hm0 | hms
                      · subst hm0
                        rw [hg] at hg'
                        cases hg'
                        rw [hi] at hi'
                        cases hi'
                        exact absurd hyt' hyt
                      · exact (ih rest hr m).mpr ⟨hms, tdv', td', hg', hi', hyt'⟩

/-- C4, witness: the amended characterization applied to the concrete
later-year metric, which passes the filter. -/
theorem C4_filter_witness :
    lateMetric ∈ ([lateMetric] : List PyVal) ↔ (lateMetric ∈ ([lateMetric] : List PyVal) ∧
      ∃ tdv td, pyGet lateMetric "target_date" .none = .ok tdv ∧
        pyIntOf (pyOr tdv (.int 0)) = .ok td ∧ year2026Start ≤ td) :=
  C4_filter_amended year2026Start [lateMetric] [lateMetric] rfl lateMetric

/-- The capped list path always has at least 12 characters. -/
theorem userGoalPath_data_length (u : ℤ) :
    (userGoalPath u).data.length = 11 + (intStr u).length := by
  have h : (userGoalPath u).data = "/user/".data ++ intStr u ++ "/goal".data := by
    simp [userGoalPath, String.data_append]
  rw [h]
  simp
  omega

/-- The capped list path differs from the self-user path. -/
theorem userGoalPath_ne_user (u : ℤ) : userGoalPath u ≠ "/user" := by
  intro h
  have hl := congrArg (fun s => s.data.length) h
  simp only [userGoalPath_data_length] at hl
  have h5 : ("/user" : String).data.length = 5 := rfl
  rw [h5] at hl
  omega

/-- The capped list path differs from the metric-collection path. -/
theorem userGoalPath_ne_metric (u : ℤ) : userGoalPath u ≠ "/metric" := by
  intro h
  have hl := congrArg (fun s => s.data.length) h
  simp only [userGoalPath_data_length] at hl
  have h7 : ("/metric" : String).data.length = 7 := rfl
  rw [h7] at hl
  omega

/-- C2: on the implicit path of `get_my_objectives`, when metric-driven
discovery yields zero objective ids the operation returns the empty
objectives list with its explanatory message, and the trace of backend
calls made is exactly the self-user fetch and the metric fetch — the
capped list endpoint `/user/\x7bid\x7d/goal` is never queried. -/
theorem C2_no_capped_endpoint (B : Backend) (ys : ℤ) (uresp mresp : PyVal)
    (uid : ℤ)
    (h1 : B.get "/user" = .ok uresp)
    (h2 : parseCurrentUserId uresp = .ok uid)
    (h3 : B.get "/metric" = .ok mresp)
    (h4 : discoverIds ys mresp = .ok []) :
    (get_my_objectives B ys Option.none).run =
      (.ok noObjectivesFound, [.get "/user", .get "/metric"]) ∧
    ∀ u : ℤ, Call.get (userGoalPath u) ∉ ([.get "/user", .get "/metric"] : List Call) := by
  constructor
  · simp only [get_my_objectives, TM.run, TM.bind_apply, tmGet_apply, h1, h2,
      h3, h4, objectiveIdsFromMetrics, liftPy_apply, TM.pure_apply]
    rfl
  · intro u hmem
    rcases List.mem_cons.mp hmem with h | h
    · exact userGoalPath_ne_user u (by injection h)
    · rcases List.mem_cons.mp h with h | h
      · exact userGoalPath_ne_metric u (by injection h)
      · cases h

/-- A backend on which discovery finds no current-year metrics. -/
def emptyDiscoveryBackend : Backend where
  get p :=
    if p = "/user" then
      .ok (.dict [("data", .dict [("user", .dict [("user_id", .str "42")])])])
    else if p = "/metric" then
      .ok (.dict [("data", .dict [("metric", .list [])])])
    else .error (.notFound "Resource".data "x".data)
  put _ _ := .ok (.dict [])

/-- C2, witness: the theorem applied to a concrete backend with an empty
metric collection. -/
theorem C2_witness :
    (get_my_objectives emptyDiscoveryBackend year2026Start Option.none).run =
      (.ok noObjectivesFound, [.get "/user", .get "/metric"]) ∧
    ∀ u : ℤ, Call.get (userGoalPath u) ∉ ([.get "/user", .get "/metric"] : List Call) :=
  C2_no_capped_endpoint emptyDiscoveryBackend year2026Start _ _ 42 rfl rfl rfl rfl

/-- C5: on the explicit-ids path of `get_my_objectives`, when the detail
fetch of one id fails with a `UserError` (the class of every not-found /
permission error raised by the client) the operation does not raise and
does not abort: ids fetched before the failure are returned, the failing
id is recorded in `skipped` with its human-readable reason (see
`skippedEntry`), and every remaining id is still fetched and returned —
the trace shows all three detail endpoints queried. -/
theorem C5_skip_and_continue (B : Backend) (ys uid i j k : ℤ)
    (uresp gi gk gli glk fgi fgk : PyVal) (e : UserErr)
    (h0 : B.get "/user" = .ok uresp)
    (hu : parseCurrentUserId uresp = .ok uid)
    (hipos : 0 < i) (hjpos : 0 < j) (hkpos : 0 < k)
    (hgi : B.get (userGoalDetailPath uid i) = .ok gi)
    (hgli : detailGoal gi = .ok gli)
    (hdi : isDict gli = true) (hti : pyTruthy gli = true)
    (hfi : formatGoal gli = .ok fgi)
    (hej : B.get (userGoalDetailPath uid j) = .error e)
    (hgk : B.get (userGoalDetailPath uid k) = .ok gk)
    (hglk : detailGoal gk = .ok glk)
    (hdk : isDict glk = true) (htk : pyTruthy glk = true)
    (hfk : formatGoal glk = .ok fgk) :
    (get_my_objectives B ys (some [i, j, k])).run =
      (.ok (.dict [("objectives", .list [fgi, fgk]),
                   ("skipped", .list [skippedEntry j])]),
       [.get "/user", .get (userGoalDetailPath uid i),
        .get (userGoalDetailPath uid j), .get (userGoalDetailPath uid k)]) := by
  have hvi : validate_objective_id i = .ok i := by
    unfold validate_objective_id
    rw [if_neg (by omega)]
  have hvj : validate_objective_id j = .ok j := by
    unfold validate_objective_id
    rw [if_neg (by omega)]
  have hvk : validate_objective_id k = .ok k := by
    unfold validate_objective_id
    rw [if_neg (by omega)]
  simp only [get_my_objectives, TM.run, TM.bind_apply, tmGet_apply, h0, hu,
    fetchLoop, liftUser_apply, hvi, hvj, hvk, tmCatchUser, hgi, hej, hgk,
    liftPy_apply, hgli, hglk, hfi, hfk, TM.pure_apply,
    if_pos (And.intro hdi hti), if_pos (And.intro hdk htk)]
  rfl

/-- A sample raw goal detail body. -/
def okGoal : PyVal :=
  .dict [("goal_id", .int 100), ("goal_name", .str "My OKR"),
    ("goal_progress", .str "60")]

/-- A sample objective-detail response embedding `okGoal`. -/
def okDetailResp : PyVal :=
  .dict [("data", .dict [("user", .dict [("goal", okGoal)])])]

/-- The formatted rendering of `okGoal`. -/
def okFmtGoal : PyVal :=
  .dict [("objective_id", .int 100), ("name", .str "My OKR"),
    ("progress", .str "60%")]

/-- The self-user response naming user 42. -/
def selfUser42 : PyVal :=
  .dict [("data", .dict [("user", .dict [("user_id", .str "42")])])]

/-- A backend where objective 2 is not accessible but 1 and 3 are. -/
def partialFailureBackend : Backend where
  get p :=
    if p = "/user" then .ok selfUser42
    else if p = "/user/42/goal/2" then
      .error (.notFound "Resource".data "Goal not found".data)
    else .ok okDetailResp
  put _ _ := .ok (.dict [])

/-- C5, witness: explicit ids `[1, 2, 3]` where id 2 404s yield the two
accessible objectives plus one skipped entry referencing id 2. -/
theorem C5_witness :
    (get_my_objectives partialFailureBackend year2026Start (some [1, 2, 3])).run =
      (.ok (.dict [("objectives", .list [okFmtGoal, okFmtGoal]),
        ("skipped", .list [skippedEntry 2])]),
       [.get "/user", .get (userGoalDetailPath 42 1),
        .get (userGoalDetailPath 42 2), .get (userGoalDetailPath 42 3)]) :=
  C5_skip_and_continue partialFailureBackend year2026Start 42 1 2 3
    selfUser42 okDetailResp okDetailResp okGoal okGoal okFmtGoal okFmtGoal
    (.notFound "Resource".data "Goal not found".data)
    rfl rfl (by omega) (by omega) (by omega)
    rfl rfl (by decide) (by decide) rfl
    rfl rfl rfl (by decide) (by decide) rfl

/-- The ownership test stated by the specification for the capped-list
fallback, written from the spec's words: owner and user identifiers
match when their textual forms coincide (string-normalized comparison,
so integer and numeric-string forms compare equal).  Defined only to
compare the spec's filtering requirement against the code. -/
def specOwnerMatches (owner userId : PyVal) : Prop :=
  pyStrOf owner = pyStrOf userId

/-- A raw goal owned by user 999. -/
def cappedGoal : PyVal :=
  .dict [("goal_id", .int 1), ("goal_owner", .int 999), ("goal_name", .str "Q1")]

/-- A capped-endpoint response reporting 20 goals but carrying one,
owned by a different user than the requester. -/
def cappedResponse : PyVal :=
  .dict [("data", .dict [("goal_count", .int 20),
    ("user", .dict [("goal", .dict [("0", cappedGoal)])])])]

/-- A backend serving `cappedResponse` for every get. -/
def cappedBackend : Backend where
  get _ := .ok cappedResponse
  put _ _ := .ok (.dict [])

/-- The formatted rendering of `cappedGoal`. -/
def fmtCappedGoal : PyVal :=
  .dict [("objective_id", .int 1), ("name", .str "Q1"), ("progress", .str "0%")]

/-- C3, counterexample: `get_objectives` performs no owner filtering —
requesting user 42's objectives returns the goal owned by user 999
(whose owner identifier does not match 42 under the string-normalized
comparison), so not every returned objective belongs to the requester. -/
theorem C3_counterexample :
    (get_objectives cappedBackend 42).run =
      (.ok (.dict [("objectives", .list [fmtCappedGoal]),
        ("warning", .str "Showing 1 of 20 objectives (API cap). Some objectives may be missing.")]),
       [.get (userGoalPath 42)]) ∧
    pyGet cappedGoal "goal_owner" .none = .ok (.int 999) ∧
    ¬ specOwnerMatches (.int 999) (.int 42) :=
  ⟨rfl, rfl, by unfold specOwnerMatches; decide⟩

/-- C3, amended: whenever the capped objective-list endpoint is used,
the returned list contains every extracted goal formatted, with no
owner filtering (the code documents the endpoint as returning associated
objectives, not owned ones), and a warning naming the exact counts is
attached exactly when the reported total exceeds the number of returned
items. -/
theorem C3_unfiltered_with_warning (B : Backend) (uid : ℤ) (resp : PyVal)
    (goals objs : List PyVal) (count : ℤ)
    (hu : 0 < uid)
    (hresp : B.get (userGoalPath uid) = .ok resp)
    (hex : extractGoals resp = .ok (goals, .int count))
    (hfmt : goals.mapM formatGoal = .ok objs) :
    (get_objectives B uid).run =
      (.ok (.dict ([("objectives", .list objs)] ++
        (if (goals.length : ℤ) < count then
          [("warning", .str ⟨"Showing ".data ++ natDigits goals.length ++
            " of ".data ++ pyStrOf (.int count) ++
            " objectives (API cap). Some objectives may be missing.".data⟩)]
         else []))),
       [.get (userGoalPath uid)]) := by
  have hv : validate_user_id uid = .ok uid := by
    unfold validate_user_id
    rw [if_neg (by omega)]
  simp only [get_objectives, TM.run, TM.bind_apply, liftUser_apply, hv,
    tmGet_apply, hresp, liftPy_apply, hex, hfmt, pyGtNat, TM.pure_apply]
  by_cases hgt : (goals.length : ℤ) < count
  · simp [hgt, TM.pure_apply]
  · simp [hgt, TM.pure_apply]

/-- C3, witness: the amended theorem applied to the concrete capped
backend, where the reported total 20 exceeds the single returned goal. -/
theorem C3_witness :
    (get_objectives cappedBackend 42).run =
      (.ok (.dict ([("objectives", .list [fmtCappedGoal])] ++
        (if ((([cappedGoal] : List PyVal).length : ℤ)) < 20 then
          [("warning", .str ⟨"Showing ".data ++ natDigits [cappedGoal].length ++
            " of ".data ++ pyStrOf (.int 20) ++
            " objectives (API cap). Some objectives may be missing.".data⟩)]
         else []))),
       [.get (userGoalPath 42)]) :=
  C3_unfiltered_with_warning cappedBackend 42 cappedResponse
    [cappedGoal] [fmtCappedGoal] 20 (by omega) rfl rfl rfl

/-- The outcome of the advisory read-back step after its `except
Exception` wrapper: any failure, at the transport or extraction level,
collapses to "no current value known". -/
def advisoryOutcome (B : Backend) (mid : ℤ) : Option PyFloat × PyVal :=
  match B.get "/metric" with
  | .error _ => (Option.none, defaultMetricName mid)
  | .ok r =>
      match readBackPure mid r with
      | .error _ => (Option.none, defaultMetricName mid)
      | .ok pr => pr

/-- The guarded read-back step always succeeds, records exactly the
metric-collection fetch in the trace, and yields `advisoryOutcome`. -/
theorem advisory_apply (B : Backend) (mid : ℤ) (t : List Call) :
    tmCatchAll (readCurrentValue B mid)
      (fun _ => pure (Option.none, defaultMetricName mid)) t =
      (.ok (advisoryOutcome B mid), t ++ [.get "/metric"]) := by
  unfold tmCatchAll readCurrentValue advisoryOutcome
  cases hg : B.get "/metric" with
  | error e => simp [TM.bind_apply, tmGet_apply, hg, TM.pure_apply]
  | ok r =>
      cases hr : readBackPure mid r with
      | error e =>
          simp [TM.bind_apply, tmGet_apply, hg, liftPy_apply, hr, TM.pure_apply]
      | ok pr =>
          simp [TM.bind_apply, tmGet_apply, hg, liftPy_apply, hr, TM.pure_apply]

/-- The regression warning is never the empty string. -/
theorem decreaseWarning_ne_nil (cur new : PyFloat) (nm : PyVal) (mid : ℤ) :
    decreaseWarning cur new nm mid ≠ [] := by
  unfold decreaseWarning
  intro h
  rw [List.append_eq_nil] at h
  exact absurd h.2 (by decide)

/-- C6: when the advisory read-back of `update_key_result` succeeds with
a current value, a warning naming the old value, the new value, the
metric name and the metric id is attached exactly when the new value is
strictly below the current one (so no warning when it is greater or
equal), the warning is non-empty, and the write is performed in either
case — the backend `put` is in the trace and the result carries the
updated record. -/
theorem C6_decrease_warning (B : Backend) (mid : ℤ) (value : String)
    (comment : Option String) (vv : String × Option String)
    (cur new : PyFloat) (nm presp : PyVal)
    (h1 : 0 < mid)
    (h2 : validateUpdateKeyResultInput value comment = .ok vv)
    (h3 : advisoryOutcome B mid = (some cur, nm))
    (h4 : pyFloatOf (.str vv.1) = .ok new)
    (h5 : B.put (metricPath mid) (updatePayload vv) = .ok presp) :
    (update_key_result B mid value comment).run =
      (.ok (.dict ([("key_result", presp)] ++
        (if PyFloat.lt new cur then
          [("warning", .str ⟨decreaseWarning cur new nm mid⟩)] else []))),
       [.get "/metric", .put (metricPath mid) (updatePayload vv)]) ∧
    decreaseWarning cur new nm mid ≠ [] := by
  have hv : validate_metric_id mid = .ok mid := by
    unfold validate_metric_id
    rw [if_neg (by omega)]
  refine ⟨?_, decreaseWarning_ne_nil cur new nm mid⟩
  simp only [update_key_result, TM.run, TM.bind_apply, liftUser_apply, hv]
  simp only [liftPy_apply, h2]
  simp only [advisory_apply, h3]
  simp only [h4]
  simp only [tmPut_apply, h5]
  simp only [TM.pure_apply]
  cases hlt : PyFloat.lt new cur with
  | false => simp [hlt]
  | true => simp [hlt, decreaseWarning_ne_nil cur new nm mid]

/-- A backend whose metric 10 currently stands at 50. -/
def currentFiftyBackend : Backend where
  get p :=
    if p = "/metric" then
      .ok (.dict [("data", .dict [("metric", .list [
        .dict [("metric_id", .int 10), ("metric_name", .str "Revenue"),
          ("metric_achieve_target", .str "50")]])])])
    else .error (.notFound "Resource".data "x".data)
  put _ _ := .ok (.dict [("data", .str "updated")])

/-- C6, witness: updating metric 10 from current value 50 to 30 on the
concrete backend. -/
theorem C6_witness :
    (update_key_result currentFiftyBackend 10 "30" Option.none).run =
      (.ok (.dict ([("key_result", .dict [("data", .str "updated")])] ++
        (if PyFloat.lt (.finite 30) (.finite 50) then
          [("warning", .str ⟨decreaseWarning (.finite 50) (.finite 30)
            (.str "Revenue") 10⟩)] else []))),
       [.get "/metric",
        .put (metricPath 10) (updatePayload ("30", Option.none))]) ∧
    decreaseWarning (.finite 50) (.finite 30) (.str "Revenue") 10 ≠ [] :=
  C6_decrease_warning currentFiftyBackend 10 "30" Option.none
    ("30", Option.none) (.finite 50) (.finite 30) (.str "Revenue")
    (.dict [("data", .str "updated")])
    (by omega) rfl rfl rfl rfl

/-- C7: when the advisory read-back fails for any reason — transport
error, shape mismatch, or the metric missing from the collection, all of
which leave `advisoryOutcome` with no current value — the failure is
swallowed: the operation still issues the backend write (the `put` is in
the trace) and returns the updated record with no error and no
warning. -/
theorem C7_readback_failure_still_writes (B : Backend) (mid : ℤ)
    (value : String) (comment : Option String) (vv : String × Option String)
    (new : PyFloat) (presp : PyVal)
    (h1 : 0 < mid)
    (h2 : validateUpdateKeyResultInput value comment = .ok vv)
    (h3 : (advisoryOutcome B mid).1 = Option.none)
    (h4 : pyFloatOf (.str vv.1) = .ok new)
    (h5 : B.put (metricPath mid) (updatePayload vv) = .ok presp) :
    (update_key_result B mid value comment).run =
      (.ok (.dict [("key_result", presp)]),
       [.get "/metric", .put (metricPath mid) (updatePayload vv)]) := by
  have hv : validate_metric_id mid = .ok mid := by
    unfold validate_metric_id
    rw [if_neg (by omega)]
  rcases hA : advisoryOutcome B mid with ⟨o, nm2⟩
  rw [hA] at h3
  subst h3
  simp only [update_key_result, TM.run, TM.bind_apply, liftUser_apply, hv]
  simp only [liftPy_apply, h2]
  simp only [advisory_apply, hA]
  simp only [h4]
  simp only [tmPut_apply, h5]
  simp only [TM.pure_apply]
  simp

/-- A backend whose metric-collection fetch always fails. -/
def brokenReadBackend : Backend where
  get _ := .error (.apiError 500 "boom".data)
  put _ _ := .ok (.dict [("data", .str "updated")])

/-- C7, witness: the update proceeds although the read-back transport
call failed. -/
theorem C7_witness :
    (update_key_result brokenReadBackend 10 "30" Option.none).run =
      (.ok (.dict [("key_result", .dict [("data", .str "updated")])]),
       [.get "/metric",
        .put (metricPath 10) (updatePayload ("30", Option.none))]) :=
  C7_readback_failure_still_writes brokenReadBackend 10 "30" Option.none
    ("30", Option.none) (.finite 30) (.dict [("data", .str "updated")])
    (by omega) rfl rfl rfl rfl

/-- A backend whose metric 5 currently stands at 50. -/
def nanValueBackend : Backend where
  get p :=
    if p = "/metric" then
      .ok (.dict [("data", .dict [("metric", .list [
        .dict [("metric_id", .int 5), ("metric_name", .str "Revenue"),
          ("metric_achieve_target", .str "50")]])])])
    else .error (.notFound "Resource".data "x".data)
  put _ _ := .ok (.dict [("data", .str "updated")])

/-- C10: the value validation accepts the non-finite numeric strings
`"nan"` and `"inf"` — both parse as floats and neither is strictly below
zero — and `update_key_result` then sends the literal string as the new
metric value to the backend (and, since `nan` and `inf` do not compare
strictly below the current value 50, attaches no warning). -/
theorem C10_nonfinite_values_accepted :
    validateUpdateKeyResultInput "nan" Option.none = .ok ("nan", Option.none) ∧
    validateUpdateKeyResultInput "inf" Option.none = .ok ("inf", Option.none) ∧
    (update_key_result nanValueBackend 5 "nan" Option.none).run =
      (.ok (.dict [("key_result", .dict [("data", .str "updated")])]),
       [.get "/metric",
        .put "/metric/5" (.dict [("metric_data", .str "nan")])]) ∧
    (update_key_result nanValueBackend 5 "inf" Option.none).run =
      (.ok (.dict [("key_result", .dict [("data", .str "updated")])]),
       [.get "/metric",
        .put "/metric/5" (.dict [("metric_data", .str "inf")])]) :=
  ⟨rfl, rfl, rfl, rfl⟩

end WB
